import Mathlib

/-!
Verification of the DenseNet architecture builder (Classifier/DenseNet/densenet.py).

The file shallowly embeds the graph-construction code of the repository:

* Keras tensors are embedded as symbolic graph terms (`KTensor`); the static
  shape semantics of each layer (channels_last data format, the backend
  default under which the repository is used) is the function `shapeOf`.
* Every layer instantiation is logged in an explicit node list (`List String`),
  so that fail-fast behaviour (no graph node created before the error) is
  observable: the builders return `Except (String × List String) _`, the
  error carrying the nodes already created when the error was raised.
* Python float hyperparameters (reduction, compression, dropout rate) are
  embedded as exact unnormalized fractions (`PyNum`, numerator over positive
  denominator); `pyInt` is the Python `int()` truncation toward zero.
* Python `//` on ints is `Int.fdiv` (floor); Python `/` under exact
  divisibility and `%` with a positive modulus agree with the Lean `Int`
  operators `/` and `%` (Euclidean).

The builder functions `conv_block`, `dense_block`, `transition_block`,
`transition_up_block`, `create_dense_net`, `DenseNet` and
`SubPixelUpscaling.compute_output_shape` mirror the identically named Python
functions; `weight_decay` is dropped as it has no effect on shapes, errors or
topology.
-/

/-- An exact scalar `num / den` standing for a Python float value; `den` is
positive by construction convention at every use site. Kept unnormalized so
that all arithmetic is kernel-computable. -/
structure PyNum where
  num : Int
  den : Nat
deriving DecidableEq, Repr

/-- The rational value denoted by a `PyNum` (used in specification statements
only). -/
def PyNum.toRat (r : PyNum) : ℚ := (r.num : ℚ) / (r.den : ℚ)

/-- Embedding of a Python nonnegative float literal written as an integer
(`0.0`, `1.0`, ...). -/
def PyNum.ofInt (n : Int) : PyNum := ⟨n, 1⟩

/-- Computes `1.0 - r`: the compression factor computation of the source. -/
def PyNum.oneSub (r : PyNum) : PyNum := ⟨(r.den : Int) - r.num, r.den⟩

/-- Computes `n * r` for an integer `n` and float `r` (as in
`nb_filter * compression`). -/
def PyNum.mulInt (n : Int) (r : PyNum) : PyNum := ⟨n * r.num, r.den⟩

/-- Python truthiness of a float: nonzero. -/
def PyNum.isNonzero (r : PyNum) : Bool := r.num ≠ 0

/-- Tests `r > 0.0` (denominator positive by convention). -/
def PyNum.isPos (r : PyNum) : Bool := 0 < r.num

/-- Tests `r <= 1.0` (denominator positive by convention). -/
def PyNum.leOne (r : PyNum) : Bool := r.num ≤ (r.den : Int)

/-- Python `int(...)` applied to the float `r`: truncation toward zero. -/
def pyInt (r : PyNum) : Int := Int.tdiv r.num (r.den : Int)

/-- Symbolic Keras tensors: the graph terms the builder functions of
densenet.py produce. Constructors record the hyperparameters that determine
static shapes (filters, kernel, strides, scale factor). -/
inductive KTensor where
  /-- the `img_input` placeholder (`Input(shape=input_shape)`) -/
  | inp : KTensor
  /-- layer `BatchNormalization(...)` -/
  | bn : KTensor → KTensor
  /-- layer `Activation(...)` (relu or the final activation) -/
  | act : KTensor → KTensor
  /-- layer `Conv2D(filters, kernel, strides, padding=same)` -/
  | conv : Nat → Nat × Nat → Nat × Nat → KTensor → KTensor
  /-- layer `Conv2DTranspose(filters, (3,3), strides=(2,2), padding=same)` -/
  | convT : Nat → KTensor → KTensor
  /-- layer `UpSampling2D()` (default size (2,2)) -/
  | upsample : KTensor → KTensor
  /-- layer `SubPixelUpscaling(scale_factor)` -/
  | subpixel : Nat → KTensor → KTensor
  /-- layer `AveragePooling2D((2,2), strides=(2,2))` (valid padding) -/
  | avgpool : KTensor → KTensor
  /-- layer `MaxPooling2D((3,3), strides=(2,2), padding=same)` -/
  | maxpool : KTensor → KTensor
  /-- layer `GlobalAveragePooling2D()` -/
  | gap : KTensor → KTensor
  /-- layer `Dense(units, activation)` -/
  | dense : Nat → KTensor → KTensor
  /-- layer `Dropout(rate)` -/
  | dropout : PyNum → KTensor → KTensor
  /-- merge `concatenate([a, b], axis=concat_axis)` -/
  | concat : KTensor → KTensor → KTensor
deriving DecidableEq, Repr

/-- Static spatial/channel shape of a tensor, channels_last: `(h, w, c)`. -/
structure Shape where
  h : Nat
  w : Nat
  c : Nat
deriving DecidableEq, Repr

/-- Ceiling division `ceil(a / b)` on naturals: the output size of a
same-padded strided operation. -/
def ceilDiv (a b : Nat) : Nat := (a + b - 1) / b

/-- Static shape semantics of the Keras layers used by densenet.py, for an
input placeholder of shape `s0`, channels_last data format. Convolutions use
same padding (output dim `ceil(dim / stride)`); the average pooling is the
Keras default valid padding (`(dim - pool) / stride + 1`); the max pooling is
same-padded; `SubPixelUpscaling` multiplies spatial dims by the scale and
divides channels by its square (see `compute_output_shape`); `concatenate`
adds channel counts on the channel axis. -/
def shapeOf (s0 : Shape) : KTensor → Shape
  | .inp => s0
  | .bn t => shapeOf s0 t
  | .act t => shapeOf s0 t
  | .dropout _ t => shapeOf s0 t
  | .conv f _ st t =>
    let s := shapeOf s0 t
    ⟨ceilDiv s.h st.1, ceilDiv s.w st.2, f⟩
  | .convT f t =>
    let s := shapeOf s0 t
    ⟨2 * s.h, 2 * s.w, f⟩
  | .upsample t =>
    let s := shapeOf s0 t
    ⟨2 * s.h, 2 * s.w, s.c⟩
  | .subpixel sc t =>
    let s := shapeOf s0 t
    ⟨sc * s.h, sc * s.w, s.c / sc ^ 2⟩
  | .avgpool t =>
    let s := shapeOf s0 t
    ⟨(s.h - 2) / 2 + 1, (s.w - 2) / 2 + 1, s.c⟩
  | .maxpool t =>
    let s := shapeOf s0 t
    ⟨ceilDiv s.h 2, ceilDiv s.w 2, s.c⟩
  | .gap t => ⟨1, 1, (shapeOf s0 t).c⟩
  | .dense n _ => ⟨1, 1, n⟩
  | .concat a b =>
    let sa := shapeOf s0 a
    let sb := shapeOf s0 b
    ⟨sa.h, sa.w, sa.c + sb.c⟩

namespace SubPixelUpscaling

/-- Method `SubPixelUpscaling.compute_output_shape` of densenet.py: on a
4-tuple `input_shape`, channels_first puts channels second, channels_last
puts them last; the scale multiplies both spatial dims and the channel count
is floor-divided by `scale_factor ** 2` (Python `//`, which on naturals is
plain truncating division). Total: no divisibility check is performed. -/
def compute_output_shape (scale_factor : Nat) (data_format : String)
    (input_shape : Nat × Nat × Nat × Nat) : Nat × Nat × Nat × Nat :=
  if data_format = "channels_first" then
    let (b, k, r, c) := input_shape
    (b, k / scale_factor ^ 2, r * scale_factor, c * scale_factor)
  else
    let (b, r, c, k) := input_shape
    (b, r * scale_factor, c * scale_factor, k / scale_factor ^ 2)

end SubPixelUpscaling

/-- Embeds `__conv_block(ip, nb_filter, bottleneck, dropout_rate)`: BatchNorm,
relu, optional bottleneck (1x1 conv to `nb_filter * 4`, BatchNorm, relu),
then a 3x3 conv with `nb_filter` filters, and dropout when the rate is
truthy. Returns the output tensor and the node log. -/
def conv_block (ip : KTensor) (nb_filter : Nat) (bottleneck : Bool)
    (dropout_rate : PyNum) (g : List String) : KTensor × List String :=
  let x := KTensor.act (KTensor.bn ip)
  let g := g ++ ["BatchNormalization", "Activation"]
  let xg :=
    if bottleneck then
      let inter_channel := nb_filter * 4
      let x := KTensor.act (KTensor.bn (KTensor.conv inter_channel (1, 1) (1, 1) x))
      (x, g ++ ["Conv2D", "BatchNormalization", "Activation"])
    else (x, g)
  let x := KTensor.conv nb_filter (3, 3) (1, 1) xg.1
  let g := xg.2 ++ ["Conv2D"]
  if dropout_rate.isNonzero then (KTensor.dropout dropout_rate x, g ++ ["Dropout"])
  else (x, g)

/-- The loop body of `__dense_block`: starting from tensor `x` and accumulated
output list `x_list`, run `n` iterations; each appends the conv block output
`cb` to `x_list`, concatenates `cb` onto `x`, and adds `growth_rate` to
`nb_filter` when `grow_nb_filters` is set. -/
def dense_block_loop (x : KTensor) (x_list : List KTensor) (n : Nat)
    (nb_filter : Int) (growth_rate : Nat) (bottleneck : Bool)
    (dropout_rate : PyNum) (grow_nb_filters : Bool) (g : List String) :
    KTensor × Int × List KTensor × List String :=
  match n with
  | 0 => (x, nb_filter, x_list, g)
  | Nat.succ m =>
    let cg := conv_block x growth_rate bottleneck dropout_rate g
    let x_list := x_list ++ [cg.1]
    let x := KTensor.concat x cg.1
    let nb_filter := if grow_nb_filters then nb_filter + (growth_rate : Int) else nb_filter
    dense_block_loop x x_list m nb_filter growth_rate bottleneck dropout_rate grow_nb_filters cg.2

/-- Embeds `__dense_block(x, nb_layers, nb_filter, growth_rate, bottleneck,
dropout_rate, grow_nb_filters, return_concat_list)`: the source initializes
`x_list = [x]` before the loop. We always return the concat list (the Python
flag `return_concat_list` only selects which components of this tuple the
caller receives). Result: `(x, nb_filter, x_list, node log)`. -/
def dense_block (x : KTensor) (nb_layers : Nat) (nb_filter : Int)
    (growth_rate : Nat) (bottleneck : Bool) (dropout_rate : PyNum)
    (grow_nb_filters : Bool) (g : List String) :
    KTensor × Int × List KTensor × List String :=
  dense_block_loop x [x] nb_layers nb_filter growth_rate bottleneck dropout_rate grow_nb_filters g

/-- Embeds `__transition_block(ip, nb_filter, compression)`: BatchNorm, relu,
1x1 conv with `int(nb_filter * compression)` filters, then 2x2 average
pooling with stride 2 (valid padding). -/
def transition_block (ip : KTensor) (nb_filter : Int) (compression : PyNum)
    (g : List String) : KTensor × List String :=
  let x := KTensor.act (KTensor.bn ip)
  let x := KTensor.conv (pyInt (PyNum.mulInt nb_filter compression)).toNat (1, 1) (1, 1) x
  let x := KTensor.avgpool x
  (x, g ++ ["BatchNormalization", "Activation", "Conv2D", "AveragePooling2D"])

/-- Embeds `__transition_up_block(ip, nb_filters, type)`: the upsampling
branch is a bare `UpSampling2D()`; the subpixel branch is conv(`nb_filters`,
3x3, same), `SubPixelUpscaling(scale_factor=2)`, conv(`nb_filters`, 3x3,
same); any other value of `type` (in particular deconv) is a
`Conv2DTranspose(nb_filters, (3,3), strides=(2,2), padding=same)`. -/
def transition_up_block (ip : KTensor) (nb_filters : Nat) (type : String)
    (g : List String) : KTensor × List String :=
  if type = "upsampling" then (KTensor.upsample ip, g ++ ["UpSampling2D"])
  else if type = "subpixel" then
    let x := KTensor.conv nb_filters (3, 3) (1, 1) ip
    let x := KTensor.subpixel 2 x
    let x := KTensor.conv nb_filters (3, 3) (1, 1) x
    (x, g ++ ["Conv2D", "SubPixelUpscaling", "Conv2D"])
  else (KTensor.convT nb_filters ip, g ++ ["Conv2DTranspose"])

/-- The Python `nb_layers_per_block` argument: either a list/tuple of ints or
a scalar int (with `-1` meaning depth-derived). -/
inductive NbLayers where
  | list : List Int → NbLayers
  | scalar : Int → NbLayers
deriving DecidableEq, Repr

/-- The per-block layer-count resolution of `__create_dense_net` (its lines
846-878). List/tuple input: `final_nb_layer = nb_layers[-1]` and
`nb_layers = nb_layers[:-1]` with NO length validation (an empty list raises
Python IndexError at `nb_layers[-1]`). Scalar `-1`: assert
`(depth - 4) % 3 == 0`, set `count = int((depth - 4) / 3)` (exact under the
assert, hence Euclidean division is faithful), floor-halve it (`count // 2`,
i.e. `Int.fdiv`) when `bottleneck` is set, and use `count` for every block
and for the final block. Other scalar: that number for every block. -/
def resolve_nb_layers (nb_layers_per_block : NbLayers) (depth : Int)
    (nb_dense_block : Nat) (bottleneck : Bool) : Except String (List Int × Int) :=
  match nb_layers_per_block with
  | .list l =>
    match l.getLast? with
    | none => .error "IndexError: list index out of range"
    | some final => .ok (l.dropLast, final)
  | .scalar n =>
    if n = -1 then
      if (depth - 4) % 3 = 0 then
        let count := (depth - 4) / 3
        let count := if bottleneck then Int.fdiv count 2 else count
        .ok (List.replicate nb_dense_block count, count)
      else .error "Depth must be 3 N + 4 if nb_layers_per_block == -1"
    else .ok (List.replicate nb_dense_block n, n)

/-- The `for block_idx in range(nb_dense_block - 1)` loop of
`__create_dense_net`: dense block on `nb_layers[block_idx]` layers, transition
block, then `nb_filter = int(nb_filter * compression)`. Indexing past the end
of `nb_layers` is a Python IndexError. -/
def dense_transition_loop (x : KTensor) (nb_filter : Int) (layers : List Int)
    (remaining : Nat) (growth_rate : Nat) (bottleneck : Bool)
    (dropout_rate : PyNum) (compression : PyNum) (g : List String) :
    Except (String × List String) (KTensor × Int × List String) :=
  match remaining with
  | 0 => .ok (x, nb_filter, g)
  | Nat.succ m =>
    match layers with
    | [] => .error ("IndexError: list index out of range", g)
    | nl :: rest =>
      let db := dense_block x nl.toNat nb_filter growth_rate bottleneck dropout_rate true g
      let tb := transition_block db.1 db.2.1 compression db.2.2.2
      let nb_filter := pyInt (PyNum.mulInt db.2.1 compression)
      dense_transition_loop tb.1 nb_filter rest m growth_rate bottleneck dropout_rate compression tb.2

/-- Embeds `__create_dense_net(nb_classes, img_input, include_top, depth,
nb_dense_block, growth_rate, nb_filter, nb_layers_per_block, bottleneck,
reduction, dropout_rate, subsample_initial_block, activation)`.

Order of the source: the reduction range assert (its line 838), the layer
resolution, the `nb_filter <= 0` default (`2 * growth_rate`), the compression
(`1.0 - reduction`), the initial convolution (7x7 stride 2 plus
BatchNorm/relu/MaxPool when `subsample_initial_block`, else 3x3 stride 1),
the dense/transition loop over the first `nb_dense_block - 1` blocks, the
final dense block, BatchNorm, relu, global average pooling, and the `Dense`
classification head when `include_top`. Errors carry the nodes already
created when they are raised. -/
def create_dense_net (nb_classes : Nat) (img_input : KTensor)
    (include_top : Bool) (depth : Int) (nb_dense_block : Nat)
    (growth_rate : Nat) (nb_filter0 : Int) (nb_layers_per_block : NbLayers)
    (bottleneck : Bool) (reduction : PyNum) (dropout_rate : PyNum)
    (subsample_initial_block : Bool) (g : List String) :
    Except (String × List String) (KTensor × List String) :=
  if reduction.isNonzero ∧ ¬(reduction.leOne ∧ reduction.isPos) then
    .error ("reduction value must lie between 0.0 and 1.0", g)
  else
    match resolve_nb_layers nb_layers_per_block depth nb_dense_block bottleneck with
    | .error e => .error (e, g)
    | .ok (nb_layers, final_nb_layer) =>
      let nb_filter : Int :=
        if nb_filter0 ≤ 0 then 2 * (growth_rate : Int) else nb_filter0
      let compression := reduction.oneSub
      let x :=
        if subsample_initial_block then
          KTensor.conv nb_filter.toNat (7, 7) (2, 2) img_input
        else
          KTensor.conv nb_filter.toNat (3, 3) (1, 1) img_input
      let g := g ++ ["Conv2D"]
      let xg :=
        if subsample_initial_block then
          (KTensor.maxpool (KTensor.act (KTensor.bn x)),
            g ++ ["BatchNormalization", "Activation", "MaxPooling2D"])
        else (x, g)
      match dense_transition_loop xg.1 nb_filter nb_layers (nb_dense_block - 1)
          growth_rate bottleneck dropout_rate compression xg.2 with
      | .error e => .error e
      | .ok (x, nb_filter, g) =>
        let db := dense_block x final_nb_layer.toNat nb_filter growth_rate bottleneck dropout_rate true g
        let x := KTensor.gap (KTensor.act (KTensor.bn db.1))
        let g := db.2.2.2 ++ ["BatchNormalization", "Activation", "GlobalAveragePooling2D"]
        if include_top then .ok (KTensor.dense nb_classes x, g ++ ["Dense"])
        else .ok (x, g)

/-- Embeds `DenseNet(...)` of densenet.py: the four fail-fast configuration
checks (in source order: weights enum, imagenet/include_top/classes,
activation enum, sigmoid/classes), then `Input(shape=...)` creates the input
node, then `__create_dense_net` builds the graph. The error component
carries the nodes created before the error was raised (empty for the four
front checks, the input node alone once `Input` has run). -/
def DenseNet (depth : Int) (nb_dense_block : Nat) (growth_rate : Nat)
    (nb_filter : Int) (nb_layers_per_block : NbLayers) (bottleneck : Bool)
    (reduction : PyNum) (dropout_rate : PyNum) (subsample_initial_block : Bool)
    (include_top : Bool) (weights : Option String) (classes : Nat)
    (activation : String) : Except (String × List String) (KTensor × List String) :=
  if weights ≠ some ("imagenet") ∧ weights ≠ none then
    .error ("The weights argument should be either None or imagenet", [])
  else if weights = some ("imagenet") ∧ include_top = true ∧ classes ≠ 1000 then
    .error ("If using weights as ImageNet with include_top as true, classes should be 1000", [])
  else if activation ≠ "softmax" ∧ activation ≠ "sigmoid" then
    .error ("activation must be one of softmax or sigmoid", [])
  else if activation = "sigmoid" ∧ classes ≠ 1 then
    .error ("sigmoid activation can only be used when classes = 1", [])
  else
    create_dense_net classes KTensor.inp include_top depth nb_dense_block
      growth_rate nb_filter nb_layers_per_block bottleneck reduction
      dropout_rate subsample_initial_block ["InputLayer"]

/-- The filter count returned by the dense block loop: it gains
`growth_rate` per iteration exactly when `grow_nb_filters` is set. -/
theorem dense_block_loop_nb_filter (gr : Nat) (bt : Bool) (dr : PyNum) (grow : Bool) :
    ∀ (n : Nat) (x : KTensor) (xl : List KTensor) (nbf : Int) (g : List String),
      (dense_block_loop x xl n nbf gr bt dr grow g).2.1 =
        if grow then nbf + (n : Int) * (gr : Int) else nbf := by
  intro n
  induction n with
  | zero =>
    intro x xl nbf g
    simp [dense_block_loop]
  | succ m ih =>
    intro x xl nbf g
    simp only [dense_block_loop]
    rw [ih]
    by_cases hg : grow
    · simp only [hg, if_true]
      push_cast
      ring
    · simp [hg]

/-- The concat list accumulated by the dense block loop: the loop appends
exactly one tensor per iteration to the initial accumulator. -/
theorem dense_block_loop_concat_list (gr : Nat) (bt : Bool) (dr : PyNum) (grow : Bool) :
    ∀ (n : Nat) (x : KTensor) (xl : List KTensor) (nbf : Int) (g : List String),
      ∃ tl : List KTensor,
        (dense_block_loop x xl n nbf gr bt dr grow g).2.2.1 = xl ++ tl ∧ tl.length = n := by
  intro n
  induction n with
  | zero =>
    intro x xl nbf g
    exact ⟨[], by simp [dense_block_loop], rfl⟩
  | succ m ih =>
    intro x xl nbf g
    obtain ⟨tl, h1, h2⟩ := ih (KTensor.concat x (conv_block x gr bt dr g).1)
      (xl ++ [(conv_block x gr bt dr g).1])
      (if grow then nbf + (gr : Int) else nbf) (conv_block x gr bt dr g).2
    refine ⟨(conv_block x gr bt dr g).1 :: tl, ?_, by simp [h2]⟩
    simp only [dense_block_loop]
    rw [h1]
    simp

/-- Claim C3: the filter count `__dense_block` returns equals the input
filter count plus `nb_layers * growth_rate` when `grow_nb_filters` is
enabled, and the input filter count unchanged when it is disabled. -/
theorem C3_dense_block_filter_count (x : KTensor) (n : Nat) (nbf : Int) (gr : Nat)
    (bt : Bool) (dr : PyNum) (grow : Bool) (g : List String) :
    (dense_block x n nbf gr bt dr grow g).2.1 =
      if grow then nbf + (n : Int) * (gr : Int) else nbf := by
  simp only [dense_block]
  exact dense_block_loop_nb_filter gr bt dr grow n x [x] nbf g

/-- Claim C4 (amended): the list `__dense_block` returns has length
`nb_layers + 1`; its FIRST element is the raw input tensor of the block and
the remaining `nb_layers` entries are the per-layer conv-block outputs. (The
segmentation assembly drops the head, `concat_list[1:]`, to exclude the raw
input.) -/
theorem C4_dense_block_list_shape (x : KTensor) (n : Nat) (nbf : Int) (gr : Nat)
    (bt : Bool) (dr : PyNum) (grow : Bool) (g : List String) :
    (dense_block x n nbf gr bt dr grow g).2.2.1.head? = some x ∧
    (dense_block x n nbf gr bt dr grow g).2.2.1.length = n + 1 := by
  obtain ⟨tl, h1, h2⟩ := dense_block_loop_concat_list gr bt dr grow n x [x] nbf g
  simp only [dense_block] at *
  rw [h1]
  simp [h2]

/-- Claim C4 is false as stated: for a concrete one-layer dense block, the
returned list CONTAINS the block's raw input tensor and has two entries, not
the one per-layer output the claim asserts. -/
theorem C4_counterexample :
    KTensor.inp ∈ (dense_block KTensor.inp 1 8 12 false (PyNum.ofInt 0) true []).2.2.1 ∧
    (dense_block KTensor.inp 1 8 12 false (PyNum.ofInt 0) true []).2.2.1.length = 2 := by
  decide

/-- Claim C5: with `nb_layers_per_block = -1` and `(depth - 4) % 3 == 0`,
`__create_dense_net` derives the per-block layer count `(depth - 4) / 3`,
floor-halved when `bottleneck` is enabled, and uses it for every dense block
and for the final block. -/
theorem C5_depth_derived_layer_count (depth : Int) (nb_dense_block : Nat)
    (bottleneck : Bool) (h : (depth - 4) % 3 = 0) :
    resolve_nb_layers (NbLayers.scalar (-1)) depth nb_dense_block bottleneck =
      .ok (List.replicate nb_dense_block
            (if bottleneck then Int.fdiv ((depth - 4) / 3) 2 else (depth - 4) / 3),
          if bottleneck then Int.fdiv ((depth - 4) / 3) 2 else (depth - 4) / 3) := by
  simp [resolve_nb_layers, h]

/-- Witness for C5 at depth 40 with bottleneck: (40 - 4) / 3 = 12, halved
to 6. -/
theorem C5_witness :
    resolve_nb_layers (NbLayers.scalar (-1)) 40 3 true = .ok (List.replicate 3 6, 6) := by
  rw [C5_depth_derived_layer_count 40 3 true (by decide)]
  rfl

/-- Claim C1 is false as stated: a concrete `DenseNet` call passing
`nb_layers_per_block` as a list of length `nb_dense_block` (here `[2, 2, 2]`
with `nb_dense_block = 3`) raises no error at all; the builder succeeds. -/
theorem C1_counterexample :
    (DenseNet 40 3 12 (-1) (NbLayers.list [2, 2, 2]) false (PyNum.ofInt 0)
      (PyNum.ofInt 0) false true none 10 ("softmax")).isOk = true := by
  decide

/-- Claim C1 (amended): `__create_dense_net` performs NO validation of the
list length. Any nonempty list is accepted whatever `nb_dense_block` is: its
last element becomes the final dense block's layer count and the remaining
prefix feeds the leading blocks. -/
theorem C1_list_length_unchecked (l : List Int) (a : Int) (depth : Int)
    (nb_dense_block : Nat) (bottleneck : Bool) :
    resolve_nb_layers (NbLayers.list (l ++ [a])) depth nb_dense_block bottleneck =
      .ok (l, a) := by
  simp [resolve_nb_layers]

/-- Claim C2 is false as stated: for a concrete input with 5 channels and
target filter count 7, the upsampling strategy outputs 5 channels, not the
target 7. -/
theorem C2_counterexample :
    (shapeOf ⟨4, 4, 5⟩ (transition_up_block KTensor.inp 7 ("upsampling") []).1).c ≠ 7 := by
  decide

/-- Claim C2 (amended): all three `__transition_up_block` strategies double
both spatial dimensions, and the subpixel and deconv strategies output the
target filter count `nb_filters`; the upsampling strategy instead keeps the
input channel count (a bare `UpSampling2D()` with no convolution). -/
theorem C2_transition_up_shapes (s0 : Shape) (t : KTensor) (nb : Nat) (g : List String) :
    shapeOf s0 (transition_up_block t nb ("upsampling") g).1 =
      ⟨2 * (shapeOf s0 t).h, 2 * (shapeOf s0 t).w, (shapeOf s0 t).c⟩ ∧
    shapeOf s0 (transition_up_block t nb ("subpixel") g).1 =
      ⟨2 * (shapeOf s0 t).h, 2 * (shapeOf s0 t).w, nb⟩ ∧
    shapeOf s0 (transition_up_block t nb ("deconv") g).1 =
      ⟨2 * (shapeOf s0 t).h, 2 * (shapeOf s0 t).w, nb⟩ := by
  refine ⟨?_, ?_, ?_⟩ <;> simp [transition_up_block, shapeOf, ceilDiv]

/-- Bridge between the Python `int(n * c)` computation on the fraction
embedding and the mathematical floor: for a nonnegative factor the
truncation is the floor of the exact rational product. -/
theorem pyInt_mulInt_eq_floor (n : Nat) (c : PyNum) (hnum : 0 ≤ c.num) :
    pyInt (PyNum.mulInt (n : Int) c) = ⌊(n : ℚ) * c.toRat⌋ := by
  have h1 : (0 : Int) ≤ (n : Int) * c.num := mul_nonneg (Int.natCast_nonneg n) hnum
  have h2 : (0 : Int) ≤ (c.den : Int) := Int.natCast_nonneg c.den
  have key : ((n : ℚ)) * c.toRat = (((n : Int) * c.num : Int) : ℚ) / ((c.den : Nat) : ℚ) := by
    rw [PyNum.toRat]
    push_cast
    ring
  simp only [pyInt, PyNum.mulInt]
  rw [Int.tdiv_eq_ediv h1 h2, key, Rat.floor_intCast_div_natCast]

/-- Claim C6: `__transition_block` on an input of spatial shape (H, W) with
H, W at least 2 and a nonnegative compression factor outputs channel count
`floor(nb_filter * compression)` and halves (floor) both spatial
dimensions via the 2x2 stride-2 average pooling. -/
theorem C6_transition_block_shape (s0 : Shape) (t : KTensor) (nb : Nat)
    (c : PyNum) (g : List String) (hnum : 0 ≤ c.num)
    (hh : 2 ≤ (shapeOf s0 t).h) (hw : 2 ≤ (shapeOf s0 t).w) :
    shapeOf s0 (transition_block t (nb : Int) c g).1 =
      ⟨(shapeOf s0 t).h / 2, (shapeOf s0 t).w / 2, (⌊(nb : ℚ) * c.toRat⌋).toNat⟩ := by
  have hfl := pyInt_mulInt_eq_floor nb c hnum
  simp only [transition_block, shapeOf, Shape.mk.injEq]
  refine ⟨?_, ?_, ?_⟩
  · simp only [ceilDiv]
    omega
  · simp only [ceilDiv]
    omega
  · rw [hfl]

/-- Witness for C6: an 8 x 6 input with 10 filters and compression 1 maps to
shape 4 x 3 with 10 channels. -/
theorem C6_witness :
    shapeOf ⟨8, 6, 10⟩ (transition_block KTensor.inp ((10 : Nat) : Int) ⟨1, 1⟩ []).1 =
      ⟨4, 3, 10⟩ := by
  rw [C6_transition_block_shape ⟨8, 6, 10⟩ KTensor.inp 10 ⟨1, 1⟩ [] (by decide)
      (by decide) (by decide)]
  simp [PyNum.toRat, shapeOf]

/-- Claim C7: for channel count `m * s ^ 2` divisible by the squared scale
factor `s`, `SubPixelUpscaling.compute_output_shape` (channels_last)
multiplies each spatial dimension by `s` and divides the channel count by
`s ^ 2` exactly. -/
theorem C7_subpixel_output_shape (s b H W m : Nat) (hs : 0 < s) :
    SubPixelUpscaling.compute_output_shape s ("channels_last") (b, H, W, m * s ^ 2) =
      (b, H * s, W * s, m) := by
  simp only [SubPixelUpscaling.compute_output_shape]
  rw [if_neg (by decide)]
  have : m * s ^ 2 / s ^ 2 = m := Nat.mul_div_cancel m (by positivity)
  rw [this]

/-- Witness for C7 at scale 2 on a 5 x 6 input with 12 = 3 * 4 channels. -/
theorem C7_witness :
    SubPixelUpscaling.compute_output_shape 2 ("channels_last") (1, 5, 6, 3 * 2 ^ 2) =
      (1, 5 * 2, 6 * 2, 3) :=
  C7_subpixel_output_shape 2 1 5 6 3 (by decide)

/-- Claim C10: `SubPixelUpscaling.compute_output_shape` is total: on a
channel count k NOT divisible by the squared scale factor it raises nothing
and silently floor-divides, and the floor strictly loses channels
(`k / s ^ 2 * s ^ 2 < k`), so the divisibility precondition is unchecked at
the shape level. -/
theorem C10_compute_output_shape_total (s b r c k : Nat)
    (hnd : ¬ s ^ 2 ∣ k) :
    SubPixelUpscaling.compute_output_shape s ("channels_last") (b, r, c, k) =
      (b, r * s, c * s, k / s ^ 2) ∧ k / s ^ 2 * s ^ 2 < k := by
  constructor
  · simp only [SubPixelUpscaling.compute_output_shape]
    rw [if_neg (by decide)]
  · have h1 : k / s ^ 2 * s ^ 2 ≤ k := Nat.div_mul_le_self k (s ^ 2)
    have h2 : k / s ^ 2 * s ^ 2 ≠ k := by
      intro he
      exact hnd ⟨k / s ^ 2, (he.symm.trans (Nat.mul_comm (k / s ^ 2) (s ^ 2)))⟩
    omega

/-- Witness for C10 at scale 2 with 5 channels (not divisible by 4). -/
theorem C10_witness :
    SubPixelUpscaling.compute_output_shape 2 ("channels_last") (1, 3, 4, 5) =
      (1, 3 * 2, 4 * 2, 5 / 2 ^ 2) ∧ 5 / 2 ^ 2 * 2 ^ 2 < 5 :=
  C10_compute_output_shape_total 2 1 3 4 5 (by decide)

/-- Claim C8: `DenseNet` raises a configuration error whenever
`weights = imagenet`, `include_top` is set and `classes` differs from 1000;
and whenever the activation is sigmoid with `classes` different from 1. -/
theorem C8_config_value_errors (depth : Int) (ndb gr : Nat) (nf : Int)
    (nlpb : NbLayers) (bt : Bool) (red dr : PyNum) (sib it : Bool)
    (weights : Option String) (classes : Nat) (activation : String) :
    ((weights = some ("imagenet") ∧ it = true ∧ classes ≠ 1000) →
      ∃ e, DenseNet depth ndb gr nf nlpb bt red dr sib it weights classes activation =
        .error e) ∧
    ((activation = "sigmoid" ∧ classes ≠ 1) →
      ∃ e, DenseNet depth ndb gr nf nlpb bt red dr sib it weights classes activation =
        .error e) := by
  constructor
  · rintro ⟨hw, ht, hc⟩
    unfold DenseNet
    rw [if_neg (by simp [hw]), if_pos ⟨hw, ht, hc⟩]
    exact ⟨_, rfl⟩
  · rintro ⟨ha, hc⟩
    unfold DenseNet
    split
    · exact ⟨_, rfl⟩
    · split
      · exact ⟨_, rfl⟩
      · split
        · exact ⟨_, rfl⟩
        · rw [if_pos ⟨ha, hc⟩]
          exact ⟨_, rfl⟩

/-- Witness for C8: imagenet weights with include_top and 10 classes
errors; sigmoid activation with 2 classes errors. -/
theorem C8_witness :
    (∃ e, DenseNet 40 3 12 (-1) (NbLayers.scalar (-1)) false (PyNum.ofInt 0) (PyNum.ofInt 0)
        false true (some ("imagenet")) 10 ("softmax") = .error e) ∧
    (∃ e, DenseNet 40 3 12 (-1) (NbLayers.scalar (-1)) false (PyNum.ofInt 0) (PyNum.ofInt 0)
        false true none 2 ("sigmoid") = .error e) :=
  ⟨(C8_config_value_errors 40 3 12 (-1) (NbLayers.scalar (-1)) false (PyNum.ofInt 0)
      (PyNum.ofInt 0) false true (some ("imagenet")) 10 ("softmax")).1 ⟨rfl, rfl, by decide⟩,
   (C8_config_value_errors 40 3 12 (-1) (NbLayers.scalar (-1)) false (PyNum.ofInt 0)
      (PyNum.ofInt 0) false true none 2 ("sigmoid")).2 ⟨rfl, by decide⟩⟩

/-- Claim C9 is false as stated: a concrete call with an out-of-range
reduction (3/2) surfaces its error only AFTER the input node has been
created — the partial graph at the error is nonempty. -/
theorem C9_counterexample :
    DenseNet 40 3 12 (-1) (NbLayers.scalar (-1)) false ⟨3, 2⟩ (PyNum.ofInt 0)
        false true none 10 ("softmax") =
      .error ("reduction value must lie between 0.0 and 1.0", ["InputLayer"]) ∧
    ("InputLayer" :: []) ≠ ([] : List String) :=
  ⟨rfl, by decide⟩

/-- Claim C9 (amended): the four validations performed by `DenseNet` itself
(invalid weights name, pretrained class-count mismatch, invalid activation,
sigmoid with several classes) surface before ANY graph node is created; the
out-of-range-reduction error is raised by `__create_dense_net` only after
the input node exists (a one-node partial graph), though before any
computation layer. (The invalid list-length case raises no error at all; see
the C1 results.) -/
theorem C9_failfast (depth : Int) (ndb gr : Nat) (nf : Int) (nlpb : NbLayers)
    (bt : Bool) (red dr : PyNum) (sib it : Bool) (weights : Option String)
    (classes : Nat) (activation : String) :
    ((weights ≠ some ("imagenet") ∧ weights ≠ none) →
      ∃ e, DenseNet depth ndb gr nf nlpb bt red dr sib it weights classes activation =
        .error (e, [])) ∧
    ((weights = some ("imagenet") ∧ it = true ∧ classes ≠ 1000) →
      ∃ e, DenseNet depth ndb gr nf nlpb bt red dr sib it weights classes activation =
        .error (e, [])) ∧
    ((activation ≠ "softmax" ∧ activation ≠ "sigmoid") →
      ∃ e, DenseNet depth ndb gr nf nlpb bt red dr sib it weights classes activation =
        .error (e, [])) ∧
    ((activation = "sigmoid" ∧ classes ≠ 1) →
      ∃ e, DenseNet depth ndb gr nf nlpb bt red dr sib it weights classes activation =
        .error (e, [])) ∧
    (weights = none → activation = "softmax" →
      (red.isNonzero ∧ ¬(red.leOne ∧ red.isPos)) →
      ∃ e, DenseNet depth ndb gr nf nlpb bt red dr sib it weights classes activation =
        .error (e, ["InputLayer"])) := by
  refine ⟨?_, ?_, ?_, ?_, ?_⟩
  · intro h
    unfold DenseNet
    rw [if_pos h]
    exact ⟨_, rfl⟩
  · rintro ⟨hw, ht, hc⟩
    unfold DenseNet
    rw [if_neg (by simp [hw]), if_pos ⟨hw, ht, hc⟩]
    exact ⟨_, rfl⟩
  · intro h
    unfold DenseNet
    by_cases h1 : weights ≠ some ("imagenet") ∧ weights ≠ none
    · rw [if_pos h1]
      exact ⟨_, rfl⟩
    · rw [if_neg h1]
      by_cases h2 : weights = some ("imagenet") ∧ it = true ∧ classes ≠ 1000
      · rw [if_pos h2]
        exact ⟨_, rfl⟩
      · rw [if_neg h2, if_pos h]
        exact ⟨_, rfl⟩
  · rintro ⟨ha, hc⟩
    unfold DenseNet
    by_cases h1 : weights ≠ some ("imagenet") ∧ weights ≠ none
    · rw [if_pos h1]
      exact ⟨_, rfl⟩
    · rw [if_neg h1]
      by_cases h2 : weights = some ("imagenet") ∧ it = true ∧ classes ≠ 1000
      · rw [if_pos h2]
        exact ⟨_, rfl⟩
      · rw [if_neg h2]
        by_cases h3 : activation ≠ "softmax" ∧ activation ≠ "sigmoid"
        · rw [if_pos h3]
          exact ⟨_, rfl⟩
        · rw [if_neg h3, if_pos (And.intro ha hc)]
          exact ⟨_, rfl⟩
  · intro hw ha hred
    subst hw
    subst ha
    unfold DenseNet
    rw [if_neg (by simp), if_neg (by simp), if_neg (by simp), if_neg (by simp)]
    unfold create_dense_net
    rw [if_pos hred]
    exact ⟨_, rfl⟩

/-- Witness for C9: an invalid weights name errors with an empty node list;
an out-of-range reduction (5/2) errors with exactly the input node
created. -/
theorem C9_witness :
    (∃ e, DenseNet 40 3 12 (-1) (NbLayers.scalar (-1)) false (PyNum.ofInt 0) (PyNum.ofInt 0)
        false true (some ("cifar")) 10 ("softmax") = .error (e, [])) ∧
    (∃ e, DenseNet 40 3 12 (-1) (NbLayers.scalar (-1)) false ⟨5, 2⟩ (PyNum.ofInt 0)
        false true none 10 ("softmax") = .error (e, ["InputLayer"])) :=
  ⟨(C9_failfast 40 3 12 (-1) (NbLayers.scalar (-1)) false (PyNum.ofInt 0) (PyNum.ofInt 0)
      false true (some ("cifar")) 10 ("softmax")).1 ⟨by decide, by decide⟩,
   (C9_failfast 40 3 12 (-1) (NbLayers.scalar (-1)) false ⟨5, 2⟩ (PyNum.ofInt 0)
      false true none 10 ("softmax")).2.2.2.2 rfl rfl ⟨by decide, by decide⟩⟩
